import Mathlib

/-
  Verification of the Airalo Python SDK core (OAuth token lifecycle,
  TTL cache, symmetric cryptor, request signer, voucher validation,
  static client guard) against its natural-language specification.

  The repository sources present are `airalo/airalo.py`,
  `airalo/airalo_static.py` and the test-suite; the service helper
  modules (`oauth_service.py`, `helpers/cached.py`, `helpers/crypt.py`,
  `helpers/signature.py`, `services/voucher_service.py`,
  `constants/*`) are not present, so those components are modelled
  from the spec (and the behavior pinned by the test files), as noted
  on each definition.
-/

set_option maxRecDepth 4096

namespace AiraloSDK

/-! ### Substring containment (used to state "message mentions ..." claims) -/

/-- `containsSubstring pat msg` holds when `pat` occurs contiguously inside
`msg` (stated on the underlying character lists). -/
def containsSubstring (pat msg : String) : Prop :=
  ∃ p q : List Char, msg.data = p ++ pat.data ++ q

/-! ### Symmetric Cryptor

Modelled from the spec §4.2: `encrypt`/`decrypt` on strings with a
credential-derived key; the scheme is authenticated/verifiable so that
`decrypt` on data not produced by a matching `encrypt` fails with
`CryptoError` deterministically.  The concrete file `helpers/crypt.py`
is not under `src/`, so the cipher is modelled as a verifiable framing:
the ciphertext records the key (length-framed in unary so distinct keys
can never be confused) followed by the plaintext. -/

/-- Error raised by the cryptor (spec §7 taxonomy). -/
structure CryptoError where
  msg : String
deriving DecidableEq, Repr

/-- Modelled from the spec: character-level encryption body.  The key is
framed as `k.length` copies of `'1'`, a `'0'` delimiter, then the key
itself, followed by the plaintext. -/
def encChars (s k : List Char) : List Char :=
  List.replicate k.length '1' ++ '0' :: (k ++ s)

/-- The verifiable header that `decChars` checks for key `k`. -/
def keyHeader (k : List Char) : List Char :=
  List.replicate k.length '1' ++ '0' :: k

/-- Modelled from the spec: character-level decryption; verifies the
key framing and returns the remainder, or `none` on mismatch. -/
def decChars (c k : List Char) : Option (List Char) :=
  if (keyHeader k).isPrefixOf c then some (c.drop (keyHeader k).length) else none

/-- Modelled from the spec: `encrypt(plaintext, key) -> ciphertext`
(`helpers/crypt.py` is not under `src/`). -/
def encrypt (s k : String) : String :=
  ⟨encChars s.data k.data⟩

/-- Modelled from the spec: `decrypt(ciphertext, key)`; fails with
`CryptoError` on data not produced by a matching `encrypt`. -/
def decrypt (c k : String) : Except CryptoError String :=
  match decChars c.data k.data with
  | some p => .ok ⟨p⟩
  | none => .error ⟨"Crypt: unable to decrypt value with the supplied key"⟩

/-! ### Signer

Modelled from the spec §4.1: `sign(payload) -> signature_string`,
deterministic for a given secret under a canonical serialization with
sorted keys (`helpers/signature.py` is not under `src/`).  The MAC
itself is modelled as a deterministic function of secret and message. -/

/-- Modelled from the spec: the deterministic MAC over a canonical
message with the shared secret (stand-in for HMAC-SHA512). -/
def macModel (secret msg : String) : String :=
  "hmac-sha512[" ++ secret ++ "|" ++ msg ++ "]"

/-- Modelled from the spec: canonical serialization of a payload
mapping — render each binding and sort, so key insertion order is
irrelevant. -/
def serializePayload (payload : List (String × String)) : String :=
  String.intercalate "&"
    (List.insertionSort (· ≤ ·) (payload.map fun kv => kv.1 ++ "=" ++ kv.2))

/-- Modelled from the spec: `get_signature(payload)` = MAC of the
canonical serialization with the shared secret.  A pure function: no
side effects. -/
def getSignature (secret : String) (payload : List (String × String)) : String :=
  macModel secret (serializePayload payload)

/-! ### TTL Cache

Modelled from the spec §4.3 (`helpers/cached.py` is not under `src/`):
`get(fingerprint, ttl, producer)` returns the cached value when present
and unexpired, otherwise invokes the producer once, stores the result
with expiry `now + ttl` and returns it; a producer failure is
propagated unchanged and nothing is stored.  The state carries an
instrumentation counter of producer invocations so "producer called at
most once" claims are expressible; the producer is modelled as a
function of that invocation count. -/

/-- A cache entry: stored value and absolute expiry timestamp
(spec §3, `CacheEntry`). -/
structure CacheEntry (V : Type) where
  value : V
  expiresAt : Nat
deriving DecidableEq, Repr

/-- The process-wide cache state: keyed entries (unique keys) plus the
instrumentation count of producer invocations so far. -/
structure CacheState (V : Type) where
  entries : List (String × CacheEntry V)
  producerCalls : Nat
deriving DecidableEq, Repr

/-- Read a key at time `now`: an entry past its expiry is treated as
absent (lazy expiration, spec §3). -/
def cacheRead (entries : List (String × CacheEntry V)) (key : String) (now : Nat) :
    Option V :=
  match entries.find? (fun e => e.1 == key) with
  | some e => if now < e.2.expiresAt then some e.2.value else none
  | none => none

/-- Store a value under `key`, replacing any previous entry for that key
(keys stay unique). -/
def setEntry (entries : List (String × CacheEntry V)) (key : String)
    (e : CacheEntry V) : List (String × CacheEntry V) :=
  (key, e) :: entries.filter (fun p => p.1 != key)

/-- Modelled from the spec: `Cached.get(producer, fingerprint, ttl)`.
On a hit the state is untouched; on a miss the producer is invoked
once: a success is stored with expiry `now + ttl`, a failure is
propagated and nothing is stored. -/
def cachedGet (producer : Nat → Except E V) (key : String) (ttl : Nat) (now : Nat)
    (s : CacheState V) : Except E V × CacheState V :=
  match cacheRead s.entries key now with
  | some v => (.ok v, s)
  | none =>
    match producer s.producerCalls with
    | .ok v =>
      (.ok v, ⟨setEntry s.entries key ⟨v, now + ttl⟩, s.producerCalls + 1⟩)
    | .error e => (.error e, ⟨s.entries, s.producerCalls + 1⟩)

/-- Modelled from the spec: `Cached.clear_cache()` drops all entries. -/
def clearCache (s : CacheState V) : CacheState V :=
  { s with entries := [] }

/-! ### OAuth Token Manager

Modelled from the spec §4.4 and the behavior pinned by
`tests/services/test_oauth_service.py` (`services/oauth_service.py` is
not under `src/`): the encryption key is the MD5 hex digest of the
canonical credential string, the cache key its SHA-256 hex digest with
the token namespace prefixed, and `get_access_token` retries the cache
fetch up to `RETRY_LIMIT` times with a backoff sleep between attempts,
decrypting the (encrypted) cached value before returning. -/

/-- Error surfaced by the token manager (spec §7 taxonomy). -/
structure AuthenticationError where
  msg : String
deriving DecidableEq, Repr

/-- Modelled from the spec: MD5 hex digest, abstracted as a
deterministic digest function of the input string (the digest algorithm
itself is outside the claims; only determinism matters). -/
def md5Hex (s : String) : String :=
  "md5[" ++ s ++ "]"

/-- Modelled from the spec: SHA-256 hex digest, abstracted as a
deterministic digest function of the input string. -/
def sha256Hex (s : String) : String :=
  "sha256[" ++ s ++ "]"

/-- Modelled from the spec: `SdkConstants.TOKEN_CACHE_TTL` (token
lifetime minus safety margin; the exact value is not pinned by `src/`). -/
def TOKEN_CACHE_TTL : Nat := 3600

/-- The OAuth service configuration: the canonical credential string
(`config.get_credentials(as_string=True)`) and the retry constant. -/
structure OAuthService where
  credsString : String
  retryLimit : Nat
deriving DecidableEq, Repr

/-- Modelled from the spec/tests: `_get_encryption_key()` = MD5 hex of
the credential string. -/
def getEncryptionKey (svc : OAuthService) : String :=
  md5Hex svc.credsString

/-- Modelled from the spec/tests: `_generate_cache_key()` = SHA-256 hex
of the credential string. -/
def generateCacheKey (svc : OAuthService) : String :=
  sha256Hex svc.credsString

/-- The token cache fingerprint: the namespace prefix pinned by the
tests plus the credential-derived cache key. -/
def tokenCacheName (svc : OAuthService) : String :=
  "airalo_access_token_" ++ generateCacheKey svc

/-- Modelled from the spec: linear backoff delay (seconds) before retry
`i`; only the number of sleeps is claim-relevant. -/
def backoffDelay (i : Nat) : Nat :=
  i + 1

/-- The message of the terminal retry failure; mentions the attempt
count (pinned by the tests: "after 3 attempts" appears in it). -/
def authRetryMsg (n : Nat) : String :=
  "Failed to get access token after " ++ Nat.repr n ++ " attempts"

/-- Modelled from the spec/tests: the retry loop of
`get_access_token()`.  Each iteration asks the cache (which invokes the
fetch procedure on a miss) and decrypts the returned encrypted token;
on any failure it sleeps (recorded in the sleep list) while attempts
remain, and raises `AuthenticationError` mentioning the attempt count
once `RETRY_LIMIT` attempts have failed.  The fuel argument counts the
remaining attempts. -/
def getAccessTokenGo (svc : OAuthService)
    (fetch : Nat → Except AuthenticationError String) (now : Nat) :
    Nat → CacheState String → List Nat →
    Except AuthenticationError String × CacheState String × List Nat
  | 0, s, sleeps => (.error ⟨authRetryMsg svc.retryLimit⟩, s, sleeps)
  | n + 1, s, sleeps =>
    match cachedGet fetch (tokenCacheName svc) TOKEN_CACHE_TTL now s with
    | (.ok enc, s') =>
      match decrypt enc (getEncryptionKey svc) with
      | .ok tok => (.ok tok, s', sleeps)
      | .error _ =>
        if n = 0 then (.error ⟨authRetryMsg svc.retryLimit⟩, s', sleeps)
        else getAccessTokenGo svc fetch now n s'
          (sleeps ++ [backoffDelay (svc.retryLimit - n)])
    | (.error _, s') =>
      if n = 0 then (.error ⟨authRetryMsg svc.retryLimit⟩, s', sleeps)
      else getAccessTokenGo svc fetch now n s'
        (sleeps ++ [backoffDelay (svc.retryLimit - n)])

/-- Modelled from the spec/tests: `get_access_token()`; returns the
result together with the final cache state and the list of backoff
sleeps performed. -/
def getAccessToken (svc : OAuthService)
    (fetch : Nat → Except AuthenticationError String) (now : Nat)
    (s : CacheState String) :
    Except AuthenticationError String × CacheState String × List Nat :=
  getAccessTokenGo svc fetch now svc.retryLimit s []

/-- Modelled from the spec/tests: `clear_token_cache()` delegates to
`Cached.clear_cache()`. -/
def clearTokenCache (s : CacheState String) : CacheState String :=
  clearCache s

/-- Modelled from the spec/tests: `refresh_token()` clears the token
cache, then calls `get_access_token()` and returns its result. -/
def refreshToken (svc : OAuthService)
    (fetch : Nat → Except AuthenticationError String) (now : Nat)
    (s : CacheState String) :
    Except AuthenticationError String × CacheState String × List Nat :=
  getAccessToken svc fetch now (clearTokenCache s)

/-! ### Token request (`_request_token`)

Modelled from the spec §4.4 / §6 and
`tests/services/test_oauth_service.py`: POST the signed form-encoded
credential payload; a non-200 response fails with an error carrying the
status code and the raw body text; a 200 response is parsed as JSON and
must contain `data.access_token`, which is encrypted before being
returned (it is the encrypted token that the cache stores).  The HTTP
transport is abstracted to the observed response, and JSON parsing to a
supplied parse function. -/

/-- A minimal JSON value shape, enough for the token response. -/
inductive JVal where
  | str (s : String)
  | obj (fields : List (String × JVal))
  | null

/-- Field lookup in a JSON object; `none` on non-objects. -/
def jGet (j : JVal) (key : String) : Option JVal :=
  match j with
  | .obj fields => (fields.find? (fun f => f.1 == key)).map (fun f => f.2)
  | _ => none

/-- The HTTP transport response observed by `_request_token`:
status code and raw body text. -/
structure HttpResponse where
  code : Nat
  text : String
deriving DecidableEq, Repr

/-- The non-200 failure message: carries the status code and the raw
response body (pinned by the tests: "status code: 401" and the body
both appear in it). -/
def tokenHttpErrMsg (code : Nat) (body : String) : String :=
  "Access token generation failed with status code: " ++ Nat.repr code
    ++ ", response: " ++ body

/-- Modelled from the spec/tests: `_request_token()` on an observed
response.  `parse` models `json.loads` (returning `none` on invalid
JSON); on success the extracted token is encrypted with `encKey`. -/
def requestToken (parse : String → Option JVal) (resp : HttpResponse)
    (encKey : String) : Except AuthenticationError String :=
  if resp.code = 200 then
    match parse resp.text with
    | none => .error ⟨"Failed to parse access token response"⟩
    | some j =>
      match jGet j "data" with
      | none => .error ⟨"Invalid response format: data field missing"⟩
      | some d =>
        match jGet d "access_token" with
        | some (.str tok) => .ok (encrypt tok encKey)
        | _ => .error ⟨"Access token not found in response"⟩
  else .error ⟨tokenHttpErrMsg resp.code resp.text⟩

/-! ### eSIM voucher validation

Modelled from the spec §9 (open question) and
`tests/services/test_voucher_service.py`
(`services/voucher_service.py` is not under `src/`): the payload must
carry a non-empty `vouchers` list; each item needs a truthy
`package_id` and `quantity`; and the quantity-cap check (the latent bug
the spec flags) reads the payload's top-level `quantity` field, not the
per-item ones. -/

/-- Exception type of the SDK (`AiraloException`). -/
structure AiraloException where
  msg : String
deriving DecidableEq, Repr

/-- Modelled from the spec: `SdkConstants.VOUCHER_MAX_QUANTITY` (the
exact value is not pinned by `src/`; the claims only use the bound
symbolically). -/
def VOUCHER_MAX_QUANTITY : Nat := 100000

/-- One element of the `vouchers` list; `none` models an absent field
and the Python falsy values (`""`, `0`) are representable. -/
structure EsimVoucherItem where
  packageId : Option String
  quantity : Option Nat
deriving DecidableEq, Repr

/-- The payload's `vouchers` field: absent, present but not a list, or
a list of items. -/
inductive VouchersField where
  | missing
  | notList
  | items (l : List EsimVoucherItem)
deriving DecidableEq, Repr

/-- The `create_esim_voucher` payload shape: the `vouchers` field plus
the (undocumented) top-level `quantity` field the buggy check reads. -/
structure EsimVoucherPayload where
  vouchers : VouchersField
  quantity : Option Nat
deriving DecidableEq, Repr

/-- Modelled from the spec/tests: the per-item loop of
`_validate_esim_voucher`; each iteration checks the item's
`package_id` and `quantity` for truthiness and then applies the
quantity cap to the payload's TOP-LEVEL `quantity` field (the current
implementation's behavior the spec asks to preserve). -/
def checkVoucherItems (topQuantity : Option Nat) :
    List EsimVoucherItem → Except AiraloException Unit
  | [] => .ok ()
  | it :: rest =>
    if it.packageId.getD "" = "" then
      .error ⟨"The package_id is required for each voucher"⟩
    else if it.quantity.getD 0 = 0 then
      .error ⟨"The quantity is required for each voucher"⟩
    else
      match topQuantity with
      | some q =>
        if VOUCHER_MAX_QUANTITY < q then
          .error ⟨"The quantity may not be greater than "
            ++ Nat.repr VOUCHER_MAX_QUANTITY⟩
        else checkVoucherItems topQuantity rest
      | none => checkVoucherItems topQuantity rest

/-- Modelled from the spec/tests: `_validate_esim_voucher(payload)`;
the `vouchers` field must be a non-empty list (Python truthiness),
then the per-item loop runs. -/
def validateEsimVoucher (p : EsimVoucherPayload) : Except AiraloException Unit :=
  match p.vouchers with
  | .missing => .error ⟨"vouchers field is required"⟩
  | .notList => .error ⟨"vouchers field is required"⟩
  | .items l =>
    if l = [] then .error ⟨"vouchers field is required"⟩
    else checkVoucherItems p.quantity l

/-! ### AiraloStatic initialization guard

From `airalo/airalo_static.py` (present under `src/`):
`_check_initialized` raises `AiraloException` when the class-level pool
is empty (Python falsy) or the configuration is `None`; every public
operation calls it first and `reset()` empties the pool and unsets the
configuration.  The business services the methods then delegate to are
not under `src/`, so each method's delegate result is a parameter. -/

/-- The configuration object, abstracted to its credential fields. -/
structure SdkConfig where
  clientId : String
  clientSecret : String
deriving DecidableEq, Repr

/-- The class-level state of `AiraloStatic`: the resource pool (keys
only; emptiness is what the guard reads), the configuration and the
stored access token. -/
structure StaticState where
  pool : List String
  config : Option SdkConfig
  accessToken : Option String
deriving DecidableEq, Repr

/-- The not-initialized message (airalo_static.py line 143). -/
def initErrorMsg : String :=
  "Airalo SDK is not initialized, please call AiraloStatic.init() first"

/-- `AiraloStatic._check_initialized` (airalo_static.py lines 133-144):
raises when the pool is empty or the configuration unset. -/
def checkInitialized (st : StaticState) : Except AiraloException Unit :=
  if st.pool = [] ∨ st.config = none then .error ⟨initErrorMsg⟩ else .ok ()

/-- `AiraloStatic.reset` (airalo_static.py lines 454-466): back to the
uninitialized state. -/
def resetStatic (_st : StaticState) : StaticState :=
  ⟨[], none, none⟩

/-- `AiraloStatic.get_access_token`: guard, then return the stored
token. -/
def staticGetAccessToken (st : StaticState) :
    Except AiraloException (Option String) := do
  checkInitialized st
  pure st.accessToken

/-- `AiraloStatic.refresh_token`: guard, then delegate to the OAuth
service (delegate result abstracted). -/
def staticRefreshToken (impl : Option String) (st : StaticState) :
    Except AiraloException (Option String) := do
  checkInitialized st
  pure impl

/-- `AiraloStatic.get_all_packages`: guard, then delegate. -/
def staticGetAllPackages (impl : α) (st : StaticState) :
    Except AiraloException α := do
  checkInitialized st
  pure impl

/-- `AiraloStatic.get_sim_packages`: guard, then delegate. -/
def staticGetSimPackages (impl : α) (st : StaticState) :
    Except AiraloException α := do
  checkInitialized st
  pure impl

/-- `AiraloStatic.get_local_packages`: guard, then delegate. -/
def staticGetLocalPackages (impl : α) (st : StaticState) :
    Except AiraloException α := do
  checkInitialized st
  pure impl

/-- `AiraloStatic.get_global_packages`: guard, then delegate. -/
def staticGetGlobalPackages (impl : α) (st : StaticState) :
    Except AiraloException α := do
  checkInitialized st
  pure impl

/-- `AiraloStatic.get_country_packages`: guard, then delegate. -/
def staticGetCountryPackages (impl : α) (st : StaticState) :
    Except AiraloException α := do
  checkInitialized st
  pure impl

/-- `AiraloStatic.order`: guard, then delegate. -/
def staticOrder (impl : α) (st : StaticState) : Except AiraloException α := do
  checkInitialized st
  pure impl

/-- `AiraloStatic.order_with_email_sim_share`: guard, then delegate. -/
def staticOrderWithEmailSimShare (impl : α) (st : StaticState) :
    Except AiraloException α := do
  checkInitialized st
  pure impl

/-- `AiraloStatic.order_async`: guard, then delegate. -/
def staticOrderAsync (impl : α) (st : StaticState) :
    Except AiraloException α := do
  checkInitialized st
  pure impl

/-- `AiraloStatic.order_bulk`: guard first, then the empty-packages
shortcut returns `None`, otherwise delegate. -/
def staticOrderBulk (packages : List (String × Nat)) (impl : α)
    (st : StaticState) : Except AiraloException (Option α) := do
  checkInitialized st
  if packages = [] then pure none else pure (some impl)

/-- `AiraloStatic.order_bulk_with_email_sim_share`: guard first, then
the empty-packages shortcut, otherwise delegate. -/
def staticOrderBulkWithEmailSimShare (packages : List (String × Nat))
    (impl : α) (st : StaticState) : Except AiraloException (Option α) := do
  checkInitialized st
  if packages = [] then pure none else pure (some impl)

/-- `AiraloStatic.order_async_bulk`: guard first, then the
empty-packages shortcut, otherwise delegate. -/
def staticOrderAsyncBulk (packages : List (String × Nat)) (impl : α)
    (st : StaticState) : Except AiraloException (Option α) := do
  checkInitialized st
  if packages = [] then pure none else pure (some impl)

/-- `AiraloStatic.topup`: guard, then delegate. -/
def staticTopup (impl : α) (st : StaticState) : Except AiraloException α := do
  checkInitialized st
  pure impl

/-- `AiraloStatic.get_installation_instructions`: guard, then
delegate. -/
def staticGetInstallationInstructions (impl : α) (st : StaticState) :
    Except AiraloException α := do
  checkInitialized st
  pure impl

/-- `AiraloStatic.create_future_order`: guard, then delegate. -/
def staticCreateFutureOrder (impl : α) (st : StaticState) :
    Except AiraloException α := do
  checkInitialized st
  pure impl

/-- `AiraloStatic.cancel_future_order`: guard, then delegate. -/
def staticCancelFutureOrder (impl : α) (st : StaticState) :
    Except AiraloException α := do
  checkInitialized st
  pure impl

/-! ### Concrete fixtures

Concrete inputs used by witnesses and counterexamples, mirroring the
fixtures of `tests/services/test_oauth_service.py` (credentials
`client_id=id&client_secret=sec`, token `AT123`, retry limit 3). -/

/-- Fixture: the OAuth service under the test credentials. -/
def exSvc : OAuthService :=
  ⟨"client_id=id&client_secret=sec", 3⟩

/-- Fixture: the credential-derived encryption key. -/
def exKey : String :=
  getEncryptionKey exSvc

/-- Fixture: the encrypted token as produced by a successful fetch. -/
def exEnc : String :=
  encrypt "AT123" exKey

/-- Fixture: a fetch procedure that always succeeds with the encrypted
token. -/
def exFetchOk : Nat → Except AuthenticationError String :=
  fun _ => .ok exEnc

/-- Fixture: a fetch procedure that always fails. -/
def exFetchFail : Nat → Except AuthenticationError String :=
  fun _ => .error ⟨"boom"⟩

/-- Fixture: the empty cache with no producer invocations yet. -/
def exEmpty : CacheState String :=
  ⟨[], 0⟩

/-- Fixture: a generic cache producer that always succeeds. -/
def exProducer : Nat → Except AuthenticationError String :=
  fun _ => .ok "V"

/-- Fixture: a stale-but-unexpired encrypted token from an earlier
fetch (expires at time 100). -/
def exOldEnc : String :=
  encrypt "OLD" exKey

/-- Fixture: a cache already holding the unexpired old token entry. -/
def exWarmState : CacheState String :=
  ⟨[(tokenCacheName exSvc, ⟨exOldEnc, 100⟩)], 0⟩

/-! ## Lemmas about the cryptor -/

theorem encChars_eq (s k : List Char) : encChars s k = keyHeader k ++ s := by
  simp [encChars, keyHeader, List.append_assoc]

theorem decChars_enc_same (s k : List Char) :
    decChars (encChars s k) k = some s := by
  rw [encChars_eq]
  unfold decChars
  rw [if_pos (List.isPrefixOf_iff_prefix.mpr (List.prefix_append _ _)),
    List.drop_left]

theorem keyHeader_prefix_inj {n2 n1 : Nat} {a b : List Char}
    (h : (List.replicate n2 '1' ++ '0' :: a) <+: (List.replicate n1 '1' ++ '0' :: b)) :
    n2 = n1 ∧ a <+: b := by
  induction n2 generalizing n1 with
  | zero =>
    cases n1 with
    | zero =>
      simp only [List.replicate_zero, List.nil_append, List.cons_prefix_cons] at h
      exact ⟨rfl, h.2⟩
    | succ m =>
      rw [List.replicate_succ] at h
      simp only [List.replicate_zero, List.nil_append, List.cons_append,
        List.cons_prefix_cons] at h
      exact absurd h.1 (by decide)
  | succ m2 ih =>
    cases n1 with
    | zero =>
      rw [List.replicate_succ] at h
      simp only [List.replicate_zero, List.nil_append, List.cons_append,
        List.cons_prefix_cons] at h
      exact absurd h.1 (by decide)
    | succ m1 =>
      rw [List.replicate_succ, List.replicate_succ] at h
      simp only [List.cons_append, List.cons_prefix_cons] at h
      obtain ⟨he, hrest⟩ := ih h.2
      exact ⟨by omega, hrest⟩

theorem decChars_enc_ne {s k1 k2 : List Char} (h : k1 ≠ k2) :
    decChars (encChars s k1) k2 = none := by
  unfold decChars
  rw [if_neg]
  intro hpre
  rw [List.isPrefixOf_iff_prefix] at hpre
  rw [encChars] at hpre
  obtain ⟨hlen, hpre2⟩ := keyHeader_prefix_inj (a := k2) (b := k1 ++ s)
    (by simpa [keyHeader] using hpre)
  apply h
  have h2 := List.prefix_iff_eq_take.mp hpre2
  rw [hlen] at h2
  rw [List.take_left] at h2
  exact h2.symm

/-! ## C4 and C5: cryptor round-trip and cross-key isolation -/

/-- Claim C4: for every string `s` and every key `k`,
`decrypt(encrypt(s, k), k) == s`. -/
theorem decrypt_encrypt_roundtrip (s k : String) :
    decrypt (encrypt s k) k = .ok s := by
  show (match decChars (encChars s.data k.data) k.data with
        | some p => Except.ok (String.mk p)
        | none => Except.error _) = Except.ok s
  rw [decChars_enc_same]

/-- Claim C5: for every string `s` and distinct keys `k1 ≠ k2`,
`decrypt(encrypt(s, k1), k2)` fails with `CryptoError` rather than
returning a value. -/
theorem decrypt_encrypt_cross_key_fails (s k1 k2 : String) (h : k1 ≠ k2) :
    decrypt (encrypt s k1) k2
      = .error ⟨"Crypt: unable to decrypt value with the supplied key"⟩ := by
  have hd : k1.data ≠ k2.data := by
    intro he
    apply h
    cases k1
    cases k2
    exact congrArg String.mk he
  show (match decChars (encChars s.data k1.data) k2.data with
        | some p => Except.ok (String.mk p)
        | none => Except.error _) = Except.error _
  rw [decChars_enc_ne hd]

/-- Witness for C5 at a concrete input. -/
theorem decrypt_encrypt_cross_key_fails_witness :
    decrypt (encrypt "AT123" "keyA") "keyB"
      = .error ⟨"Crypt: unable to decrypt value with the supplied key"⟩ :=
  decrypt_encrypt_cross_key_fails "AT123" "keyA" "keyB" (by decide)

/-! ## C6: signer determinism -/

/-- Claim C6: `sign(payload)` is deterministic — for every secret and
every two payloads equal as mappings (same key/value bindings in any
insertion order, stated as a permutation of the binding lists), the two
calls yield an identical signature string (and, being a pure Lean
function, `getSignature` has no side effects). -/
theorem sign_deterministic_under_reordering (secret : String)
    (p1 p2 : List (String × String)) (h : p1.Perm p2) :
    getSignature secret p1 = getSignature secret p2 := by
  unfold getSignature serializePayload
  have hsorted :
      List.insertionSort (· ≤ ·) (p1.map fun kv => kv.1 ++ "=" ++ kv.2)
        = List.insertionSort (· ≤ ·) (p2.map fun kv => kv.1 ++ "=" ++ kv.2) := by
    exact List.eq_of_perm_of_sorted
      ((List.perm_insertionSort _ _).trans
        ((h.map _).trans (List.perm_insertionSort _ _).symm))
      (List.sorted_insertionSort _ _) (List.sorted_insertionSort _ _)
  rw [hsorted]

/-- Witness for C6: two concrete payloads with the same bindings in
different insertion order yield the same signature. -/
theorem sign_deterministic_under_reordering_witness :
    getSignature "sec" [("b", "2"), ("a", "1")]
      = getSignature "sec" [("a", "1"), ("b", "2")] :=
  sign_deterministic_under_reordering "sec" _ _ (by decide)

/-! ## Lemmas about the TTL cache -/

theorem cacheRead_nil (key : String) (now : Nat) :
    cacheRead ([] : List (String × CacheEntry V)) key now = none := rfl

theorem cacheRead_set_same (es : List (String × CacheEntry V)) (key : String)
    (v : V) (exp t : Nat) :
    cacheRead (setEntry es key ⟨v, exp⟩) key t
      = if t < exp then some v else none := by
  unfold cacheRead setEntry
  rw [List.find?_cons_of_pos _ (by simp)]

theorem cachedGet_hit {producer : Nat → Except E V} {key : String} {ttl now : Nat}
    {s : CacheState V} {v : V} (hhit : cacheRead s.entries key now = some v) :
    cachedGet producer key ttl now s = (.ok v, s) := by
  unfold cachedGet
  rw [hhit]

theorem cachedGet_miss_ok {producer : Nat → Except E V} {key : String}
    (ttl : Nat) {now : Nat} {s : CacheState V} {v : V}
    (hmiss : cacheRead s.entries key now = none)
    (hp : producer s.producerCalls = .ok v) :
    cachedGet producer key ttl now s
      = (.ok v, ⟨setEntry s.entries key ⟨v, now + ttl⟩, s.producerCalls + 1⟩) := by
  unfold cachedGet
  rw [hmiss, hp]

theorem cachedGet_miss_error {producer : Nat → Except E V} {key : String}
    (ttl : Nat) {now : Nat} {s : CacheState V} {e : E}
    (hmiss : cacheRead s.entries key now = none)
    (hp : producer s.producerCalls = .error e) :
    cachedGet producer key ttl now s
      = (.error e, ⟨s.entries, s.producerCalls + 1⟩) := by
  unfold cachedGet
  rw [hmiss, hp]

theorem cachedGet_miss_calls {producer : Nat → Except E V} {key : String}
    {ttl now : Nat} {s : CacheState V}
    (hmiss : cacheRead s.entries key now = none) :
    (cachedGet producer key ttl now s).2.producerCalls = s.producerCalls + 1 := by
  unfold cachedGet
  rw [hmiss]
  cases hp : producer s.producerCalls <;> simp

/-! ## Lemmas about the token manager -/

theorem getAccessToken_first_fetch (svc : OAuthService)
    (fetch : Nat → Except AuthenticationError String) (t0 : Nat)
    (s0 : CacheState String) {enc tok : String}
    (hrl : 0 < svc.retryLimit)
    (hmiss : cacheRead s0.entries (tokenCacheName svc) t0 = none)
    (hfetch : fetch s0.producerCalls = .ok enc)
    (hdec : decrypt enc (getEncryptionKey svc) = .ok tok) :
    getAccessToken svc fetch t0 s0
      = (.ok tok,
         ⟨setEntry s0.entries (tokenCacheName svc) ⟨enc, t0 + TOKEN_CACHE_TTL⟩,
          s0.producerCalls + 1⟩, []) := by
  obtain ⟨m, hm⟩ : ∃ m, svc.retryLimit = m + 1 := ⟨svc.retryLimit - 1, by omega⟩
  unfold getAccessToken
  rw [hm]
  simp only [getAccessTokenGo, cachedGet_miss_ok TOKEN_CACHE_TTL hmiss hfetch,
    hdec]

theorem getAccessToken_cache_hit (svc : OAuthService)
    (fetch : Nat → Except AuthenticationError String) (t : Nat)
    (s : CacheState String) {enc tok : String}
    (hrl : 0 < svc.retryLimit)
    (hhit : cacheRead s.entries (tokenCacheName svc) t = some enc)
    (hdec : decrypt enc (getEncryptionKey svc) = .ok tok) :
    getAccessToken svc fetch t s = (.ok tok, s, []) := by
  obtain ⟨m, hm⟩ : ∃ m, svc.retryLimit = m + 1 := ⟨svc.retryLimit - 1, by omega⟩
  unfold getAccessToken
  rw [hm]
  simp only [getAccessTokenGo, cachedGet_hit hhit, hdec]

theorem getAccessTokenGo_all_fail (svc : OAuthService)
    (fetch : Nat → Except AuthenticationError String) (now : Nat)
    (hf : ∀ k, ∃ e, fetch k = Except.error e) :
    ∀ (n : Nat) (s : CacheState String) (sleeps : List Nat),
      cacheRead s.entries (tokenCacheName svc) now = none →
      (getAccessTokenGo svc fetch now n s sleeps).1
          = .error ⟨authRetryMsg svc.retryLimit⟩ ∧
      (getAccessTokenGo svc fetch now n s sleeps).2.1
          = ⟨s.entries, s.producerCalls + n⟩ ∧
      (getAccessTokenGo svc fetch now n s sleeps).2.2.length
          = sleeps.length + (n - 1) := by
  intro n
  induction n with
  | zero =>
    intro s sleeps hmiss
    exact ⟨rfl, rfl, rfl⟩
  | succ m ih =>
    intro s sleeps hmiss
    obtain ⟨e, he⟩ := hf s.producerCalls
    have hcg := cachedGet_miss_error TOKEN_CACHE_TTL hmiss he
    cases m with
    | zero =>
      simp only [getAccessTokenGo, hcg]
      exact ⟨rfl, rfl, by simp⟩
    | succ m' =>
      have hstep :
          getAccessTokenGo svc fetch now (m' + 1 + 1) s sleeps
            = getAccessTokenGo svc fetch now (m' + 1)
                ⟨s.entries, s.producerCalls + 1⟩
                (sleeps ++ [backoffDelay (svc.retryLimit - (m' + 1))]) := by
        simp only [getAccessTokenGo, hcg]
        rw [if_neg (by omega)]
      rw [hstep]
      obtain ⟨h1, h2, h3⟩ := ih ⟨s.entries, s.producerCalls + 1⟩
        (sleeps ++ [backoffDelay (svc.retryLimit - (m' + 1))]) hmiss
      refine ⟨h1, ?_, ?_⟩
      · rw [h2]
        show (⟨s.entries, s.producerCalls + 1 + (m' + 1)⟩ : CacheState String)
            = ⟨s.entries, s.producerCalls + (m' + 1 + 1)⟩
        rw [show s.producerCalls + 1 + (m' + 1) = s.producerCalls + (m' + 1 + 1)
          from by omega]
      · rw [h3]
        simp only [List.length_append, List.length_cons, List.length_nil]
        omega

/-! ## C1: retry bound on total failure -/

/-- Claim C1: for every fetch procedure that fails on every attempt
(and no unexpired cached token), `get_access_token()` makes exactly
`RETRY_LIMIT` attempts (the producer-invocation count rises by exactly
`svc.retryLimit`), performs `RETRY_LIMIT - 1` backoff sleeps between
them, raises `AuthenticationError` whose message mentions that attempt
count ("after 3 attempts" when the limit is 3), and caches no failure
(the cache entries are unchanged). -/
theorem get_access_token_retry_bound (svc : OAuthService)
    (fetch : Nat → Except AuthenticationError String) (now : Nat)
    (s : CacheState String)
    (hf : ∀ k, ∃ e, fetch k = Except.error e)
    (hmiss : cacheRead s.entries (tokenCacheName svc) now = none) :
    (getAccessToken svc fetch now s).1 = .error ⟨authRetryMsg svc.retryLimit⟩ ∧
    (getAccessToken svc fetch now s).2.1.producerCalls
        = s.producerCalls + svc.retryLimit ∧
    (getAccessToken svc fetch now s).2.1.entries = s.entries ∧
    (getAccessToken svc fetch now s).2.2.length = svc.retryLimit - 1 ∧
    containsSubstring ("after " ++ Nat.repr svc.retryLimit ++ " attempts")
      (authRetryMsg svc.retryLimit) := by
  obtain ⟨h1, h2, h3⟩ :=
    getAccessTokenGo_all_fail svc fetch now hf svc.retryLimit s [] hmiss
  unfold getAccessToken
  refine ⟨h1, ?_, ?_, ?_, ?_⟩
  · rw [h2]
  · rw [h2]
  · rw [h3]
    simp
  · refine ⟨("Failed to get access token ").data, [], ?_⟩
    have hsplit : ("Failed to get access token after " : String)
        = "Failed to get access token " ++ "after " := rfl
    rw [authRetryMsg, hsplit]
    simp [String.data_append, List.append_assoc]

/-- Witness for C1: with the test fixture (retry limit 3, always-failing
fetch, empty cache) the three attempts, two sleeps and the "after 3
attempts" message are all observed. -/
theorem get_access_token_retry_bound_witness :
    (getAccessToken exSvc exFetchFail 0 exEmpty).1 = .error ⟨authRetryMsg 3⟩ ∧
    (getAccessToken exSvc exFetchFail 0 exEmpty).2.1.producerCalls = 0 + 3 ∧
    (getAccessToken exSvc exFetchFail 0 exEmpty).2.1.entries = exEmpty.entries ∧
    (getAccessToken exSvc exFetchFail 0 exEmpty).2.2.length = 3 - 1 ∧
    containsSubstring ("after " ++ Nat.repr 3 ++ " attempts") (authRetryMsg 3) :=
  get_access_token_retry_bound exSvc exFetchFail 0 exEmpty
    (fun _ => ⟨⟨"boom"⟩, rfl⟩) rfl

/-! ## C2: cache correctness (producer at most once per TTL window) -/

/-- Claim C2: after a miss at time `t0` stores the produced value, a
second `cache.get` with the same fingerprint before expiry
(`t1 < t0 + ttl`) returns the stored value with the state — in
particular the producer-invocation count — unchanged; a `get` at or
after expiry (`t0 + ttl ≤ t2`) invokes the producer again (count rises
by one).  In particular (last conjunct) a second `get_access_token()`
within the token TTL performs no second network attempt. -/
theorem cache_get_producer_once_per_ttl {E V : Type}
    (producer : Nat → Except E V) (fp : String) (ttl t0 : Nat)
    (s : CacheState V) (v : V)
    (hmiss : cacheRead s.entries fp t0 = none)
    (hprod : producer s.producerCalls = .ok v) :
    (cachedGet producer fp ttl t0 s).1 = .ok v ∧
    (∀ t1, t1 < t0 + ttl →
      cachedGet producer fp ttl t1 (cachedGet producer fp ttl t0 s).2
        = (.ok v, (cachedGet producer fp ttl t0 s).2)) ∧
    (∀ t2, t0 + ttl ≤ t2 →
      (cachedGet producer fp ttl t2 (cachedGet producer fp ttl t0 s).2).2.producerCalls
        = (cachedGet producer fp ttl t0 s).2.producerCalls + 1) ∧
    (∀ (svc : OAuthService) (fetch : Nat → Except AuthenticationError String)
        (s0 : CacheState String) (enc tok : String) (u0 u1 : Nat),
      0 < svc.retryLimit →
      cacheRead s0.entries (tokenCacheName svc) u0 = none →
      fetch s0.producerCalls = .ok enc →
      decrypt enc (getEncryptionKey svc) = .ok tok →
      u1 < u0 + TOKEN_CACHE_TTL →
      (getAccessToken svc fetch u0 s0).1 = .ok tok ∧
      (getAccessToken svc fetch u1 (getAccessToken svc fetch u0 s0).2.1).1
          = .ok tok ∧
      (getAccessToken svc fetch u1 (getAccessToken svc fetch u0 s0).2.1).2.1.producerCalls
          = (getAccessToken svc fetch u0 s0).2.1.producerCalls) := by
  have hstore := cachedGet_miss_ok ttl hmiss hprod
  refine ⟨?_, ?_, ?_, ?_⟩
  · rw [hstore]
  · intro t1 ht1
    have hhit : cacheRead (cachedGet producer fp ttl t0 s).2.entries fp t1
        = some v := by
      rw [hstore]
      rw [cacheRead_set_same]
      exact if_pos ht1
    exact cachedGet_hit hhit
  · intro t2 ht2
    apply cachedGet_miss_calls
    rw [hstore, cacheRead_set_same]
    exact if_neg (by omega)
  · intro svc fetch s0 enc tok u0 u1 hrl hm0 hfetch hdec hu1
    have hfirst := getAccessToken_first_fetch svc fetch u0 s0 hrl hm0 hfetch hdec
    have hhit : cacheRead (getAccessToken svc fetch u0 s0).2.1.entries
        (tokenCacheName svc) u1 = some enc := by
      rw [hfirst]
      rw [cacheRead_set_same]
      exact if_pos hu1
    have hsecond := getAccessToken_cache_hit svc fetch u1
      (getAccessToken svc fetch u0 s0).2.1 hrl hhit hdec
    refine ⟨by rw [hfirst], by rw [hsecond], by rw [hsecond]⟩

/-- Witness for C2: concrete run — store at time 0 with TTL 60, hit at
time 30 without a producer call, expiry at time 60 invokes the producer
again; and two `get_access_token()` calls at times 0 and 5 share one
fetch. -/
theorem cache_get_producer_once_per_ttl_witness :
    (cachedGet exProducer "fp" 60 0 exEmpty).1 = .ok "V" ∧
    cachedGet exProducer "fp" 60 30 (cachedGet exProducer "fp" 60 0 exEmpty).2
      = (.ok "V", (cachedGet exProducer "fp" 60 0 exEmpty).2) ∧
    (cachedGet exProducer "fp" 60 60
        (cachedGet exProducer "fp" 60 0 exEmpty).2).2.producerCalls
      = (cachedGet exProducer "fp" 60 0 exEmpty).2.producerCalls + 1 ∧
    ((getAccessToken exSvc exFetchOk 0 exEmpty).1 = .ok "AT123" ∧
     (getAccessToken exSvc exFetchOk 5 (getAccessToken exSvc exFetchOk 0 exEmpty).2.1).1
        = .ok "AT123" ∧
     (getAccessToken exSvc exFetchOk 5
        (getAccessToken exSvc exFetchOk 0 exEmpty).2.1).2.1.producerCalls
        = (getAccessToken exSvc exFetchOk 0 exEmpty).2.1.producerCalls) := by
  obtain ⟨h1, h2, h3, h4⟩ :=
    cache_get_producer_once_per_ttl exProducer "fp" 60 0 exEmpty "V" rfl rfl
  exact ⟨h1, h2 30 (by decide), h3 60 (by decide),
    h4 exSvc exFetchOk exEmpty exEnc "AT123" 0 5 (by decide) rfl rfl rfl
      (by decide)⟩

/-! ## C3: refresh clears then fetches -/

/-- Claim C3 (amended): `refresh_token()` first clears the cached token
entry and then calls `get_access_token()`, in that order, and returns
its result; consequently the `get_access_token()` call inside a
`refresh_token()` triggers a fresh fetch (the producer is invoked) even
if the previously cached entry's TTL had not expired.  (The original
claim's parenthetical "(and the next one after)" fails on the code:
see the counterexample — a successful refresh repopulates the cache, so
the next `get_access_token()` is served from the fresh entry without
invoking the producer.) -/
theorem refresh_token_clears_then_fetches (svc : OAuthService)
    (fetch : Nat → Except AuthenticationError String) (now : Nat)
    (s : CacheState String) (encOld enc tok : String)
    (hrl : 0 < svc.retryLimit)
    (hold : cacheRead s.entries (tokenCacheName svc) now = some encOld)
    (hfetch : fetch s.producerCalls = .ok enc)
    (hdec : decrypt enc (getEncryptionKey svc) = .ok tok) :
    refreshToken svc fetch now s
        = getAccessToken svc fetch now { s with entries := [] } ∧
    (refreshToken svc fetch now s).1 = .ok tok ∧
    (refreshToken svc fetch now s).2.1.producerCalls = s.producerCalls + 1 := by
  have hfresh := getAccessToken_first_fetch svc fetch now
    ({ s with entries := [] } : CacheState String) hrl
    (cacheRead_nil (tokenCacheName svc) now) hfetch hdec
  refine ⟨rfl, ?_, ?_⟩
  · show (getAccessToken svc fetch now { s with entries := [] }).1 = .ok tok
    rw [hfresh]
  · show (getAccessToken svc fetch now { s with entries := [] }).2.1.producerCalls
        = s.producerCalls + 1
    rw [hfresh]

/-- Witness for C3's amended theorem, at the warm-cache fixture: the
pre-refresh entry is unexpired at time 0, yet the refresh performs a
fresh fetch and returns the newly fetched token. -/
theorem refresh_token_clears_then_fetches_witness :
    refreshToken exSvc exFetchOk 0 exWarmState
        = getAccessToken exSvc exFetchOk 0 { exWarmState with entries := [] } ∧
    (refreshToken exSvc exFetchOk 0 exWarmState).1 = .ok "AT123" ∧
    (refreshToken exSvc exFetchOk 0 exWarmState).2.1.producerCalls = 0 + 1 :=
  refresh_token_clears_then_fetches exSvc exFetchOk 0 exWarmState
    exOldEnc exEnc "AT123" (by decide) rfl rfl rfl

/-- Counterexample to C3 as stated: after a successful
`refresh_token()` at time 0 (which performs the single fresh fetch —
the invocation count ends at 1), the next `get_access_token()` at time
1 is answered from the entry the refresh stored and does NOT trigger a
fresh fetch (the invocation count stays 1), even though the pre-refresh
entry (expiry 100) had not expired at that time. -/
theorem refresh_token_next_get_no_fetch_counterexample :
    cacheRead exWarmState.entries (tokenCacheName exSvc) 1 = some exOldEnc ∧
    (refreshToken exSvc exFetchOk 0 exWarmState).2.1.producerCalls = 1 ∧
    (getAccessToken exSvc exFetchOk 1
        (refreshToken exSvc exFetchOk 0 exWarmState).2.1).1 = .ok "AT123" ∧
    (getAccessToken exSvc exFetchOk 1
        (refreshToken exSvc exFetchOk 0 exWarmState).2.1).2.1.producerCalls
      = 1 := by
  refine ⟨rfl, rfl, rfl, rfl⟩

/-! ## C7: credential-derived keys and decrypt-on-read -/

/-- Claim C7: the decryption key is a function only of the canonical
credential string (its MD5 hex digest) and the cache key is a function
only of the same string (its SHA-256 hex digest with the token
namespace prefix); equal credential strings yield equal cache keys and
equal encryption keys; and `get_access_token()` returns the decryption
of the value obtained from the cache. -/
theorem get_access_token_key_derivation (svc svc2 : OAuthService)
    (fetch : Nat → Except AuthenticationError String) (now : Nat)
    (s : CacheState String) (enc tok : String)
    (hcreds : svc.credsString = svc2.credsString)
    (hrl : 0 < svc.retryLimit)
    (henc : (cachedGet fetch (tokenCacheName svc) TOKEN_CACHE_TTL now s).1
        = .ok enc)
    (hdec : decrypt enc (getEncryptionKey svc) = .ok tok) :
    getEncryptionKey svc = md5Hex svc.credsString ∧
    tokenCacheName svc = "airalo_access_token_" ++ sha256Hex svc.credsString ∧
    getEncryptionKey svc = getEncryptionKey svc2 ∧
    tokenCacheName svc = tokenCacheName svc2 ∧
    (getAccessToken svc fetch now s).1 = .ok tok := by
  refine ⟨rfl, rfl, ?_, ?_, ?_⟩
  · unfold getEncryptionKey
    rw [hcreds]
  · unfold tokenCacheName generateCacheKey
    rw [hcreds]
  · obtain ⟨m, hm⟩ : ∃ m, svc.retryLimit = m + 1 := ⟨svc.retryLimit - 1, by omega⟩
    rcases hcg : cachedGet fetch (tokenCacheName svc) TOKEN_CACHE_TTL now s
      with ⟨r, s1⟩
    rw [hcg] at henc
    simp only at henc
    subst henc
    unfold getAccessToken
    rw [hm]
    simp only [getAccessTokenGo, hcg, hdec]

/-- Witness for C7 at the test fixture: equal credential strings give
equal keys, and the token returned is the decryption of the cached
encrypted blob. -/
theorem get_access_token_key_derivation_witness :
    getEncryptionKey exSvc = md5Hex exSvc.credsString ∧
    tokenCacheName exSvc
        = "airalo_access_token_" ++ sha256Hex exSvc.credsString ∧
    getEncryptionKey exSvc = getEncryptionKey ⟨exSvc.credsString, 5⟩ ∧
    tokenCacheName exSvc = tokenCacheName ⟨exSvc.credsString, 5⟩ ∧
    (getAccessToken exSvc exFetchOk 0 exEmpty).1 = .ok "AT123" :=
  get_access_token_key_derivation exSvc ⟨exSvc.credsString, 5⟩ exFetchOk 0
    exEmpty exEnc "AT123" rfl (by decide) rfl rfl

/-! ## C8: non-200 token responses surface code and body -/

/-- Claim C8: for every token-endpoint response with a status code
other than 200, the token request fails with an error whose message
contains both that status code and the raw response body text. -/
theorem request_token_non_200_surfaces_code_and_body
    (parse : String → Option JVal) (resp : HttpResponse) (encKey : String)
    (hne : resp.code ≠ 200) :
    requestToken parse resp encKey
        = .error ⟨tokenHttpErrMsg resp.code resp.text⟩ ∧
    containsSubstring (Nat.repr resp.code) (tokenHttpErrMsg resp.code resp.text) ∧
    containsSubstring resp.text (tokenHttpErrMsg resp.code resp.text) := by
  refine ⟨?_, ?_, ?_⟩
  · unfold requestToken
    rw [if_neg hne]
  · refine ⟨("Access token generation failed with status code: ").data,
      (", response: ").data ++ resp.text.data, ?_⟩
    simp [tokenHttpErrMsg, String.data_append, List.append_assoc]
  · refine ⟨("Access token generation failed with status code: ").data
        ++ (Nat.repr resp.code).data ++ (", response: ").data, [], ?_⟩
    simp [tokenHttpErrMsg, String.data_append, List.append_assoc]

/-- Witness for C8: a 401 response with a raw body; the error message
mentions both. -/
theorem request_token_non_200_surfaces_code_and_body_witness :
    requestToken (fun _ => none) ⟨401, "error=unauthorized"⟩ "k"
        = .error ⟨tokenHttpErrMsg 401 "error=unauthorized"⟩ ∧
    containsSubstring (Nat.repr 401) (tokenHttpErrMsg 401 "error=unauthorized") ∧
    containsSubstring "error=unauthorized"
      (tokenHttpErrMsg 401 "error=unauthorized") :=
  request_token_non_200_surfaces_code_and_body (fun _ => none)
    ⟨401, "error=unauthorized"⟩ "k" (by decide)

/-! ## C9: bulk-voucher validation reads the top-level quantity -/

theorem checkVoucherItems_none_ok (l : List EsimVoucherItem)
    (hvalid : ∀ it ∈ l, it.packageId.getD "" ≠ "" ∧ it.quantity.getD 0 ≠ 0) :
    checkVoucherItems none l = .ok () := by
  induction l with
  | nil => rfl
  | cons it rest ih =>
    obtain ⟨hpkg, hqty⟩ := hvalid it (List.mem_cons_self it rest)
    unfold checkVoucherItems
    rw [if_neg hpkg, if_neg hqty]
    exact ih (fun x hx => hvalid x (List.mem_cons_of_mem it hx))

/-- Claim C9: for every payload whose (non-empty) `vouchers` list
contains only valid items (truthy `package_id` and `quantity`),
`_validate_esim_voucher` raises `AiraloException` when the payload
carries a top-level `quantity` greater than `VOUCHER_MAX_QUANTITY`, and
does not raise when that top-level field is absent — the cap is applied
to the payload's top-level field, not to the per-item quantities. -/
theorem validate_esim_voucher_top_level_quantity (p : EsimVoucherPayload)
    (l : List EsimVoucherItem)
    (hv : p.vouchers = .items l)
    (hne : l ≠ [])
    (hvalid : ∀ it ∈ l, it.packageId.getD "" ≠ "" ∧ it.quantity.getD 0 ≠ 0) :
    (∀ q, p.quantity = some q → VOUCHER_MAX_QUANTITY < q →
      validateEsimVoucher p
        = .error ⟨"The quantity may not be greater than "
            ++ Nat.repr VOUCHER_MAX_QUANTITY⟩) ∧
    (p.quantity = none → validateEsimVoucher p = .ok ()) := by
  constructor
  · intro q hq hgt
    simp only [validateEsimVoucher, hv]
    rw [if_neg hne]
    rw [hq]
    cases l with
    | nil => exact absurd rfl hne
    | cons it rest =>
      obtain ⟨hpkg, hqty⟩ := hvalid it (List.mem_cons_self it rest)
      unfold checkVoucherItems
      rw [if_neg hpkg, if_neg hqty]
      simp only
      rw [if_pos hgt]
  · intro hq
    simp only [validateEsimVoucher, hv]
    rw [if_neg hne]
    rw [hq]
    exact checkVoucherItems_none_ok l hvalid

/-- Witness for C9: a single valid item; a top-level quantity of
`VOUCHER_MAX_QUANTITY + 1` raises, and the same payload without the
top-level field passes. -/
theorem validate_esim_voucher_top_level_quantity_witness :
    validateEsimVoucher
        ⟨.items [⟨some "p1", some 1⟩], some (VOUCHER_MAX_QUANTITY + 1)⟩
      = .error ⟨"The quantity may not be greater than "
          ++ Nat.repr VOUCHER_MAX_QUANTITY⟩ ∧
    validateEsimVoucher ⟨.items [⟨some "p1", some 1⟩], none⟩ = .ok () :=
  ⟨(validate_esim_voucher_top_level_quantity
      ⟨.items [⟨some "p1", some 1⟩], some (VOUCHER_MAX_QUANTITY + 1)⟩
      [⟨some "p1", some 1⟩] rfl (by decide) (by decide)).1
      (VOUCHER_MAX_QUANTITY + 1) rfl (by decide),
   (validate_esim_voucher_top_level_quantity
      ⟨.items [⟨some "p1", some 1⟩], none⟩
      [⟨some "p1", some 1⟩] rfl (by decide) (by decide)).2 rfl⟩

/-! ## C10: AiraloStatic operations guard on initialization -/

theorem checkInitialized_not_ready {st : StaticState}
    (h : st.pool = [] ∨ st.config = none) :
    checkInitialized st = .error ⟨initErrorMsg⟩ := by
  simp [checkInitialized, h]

theorem except_error_bind {ε β γ : Type} (e : ε) (f : β → Except ε γ) :
    (Except.error e >>= f) = Except.error e := rfl

/-- Claim C10: every public `AiraloStatic` operation —
`get_access_token`, `refresh_token`, the package, order, top-up,
installation-instruction and future-order methods — raises
`AiraloException` whenever the pool is empty or the configuration is
unset (the state before a successful `init()`), instead of returning a
value; and `reset()` produces exactly that uninitialized state, so the
same holds after `reset()`. -/
theorem static_methods_require_init (α : Type) (impl : α)
    (implTok : Option String) (packages : List (String × Nat))
    (st : StaticState)
    (h : st.pool = [] ∨ st.config = none) :
    staticGetAccessToken st = .error ⟨initErrorMsg⟩ ∧
    staticRefreshToken implTok st = .error ⟨initErrorMsg⟩ ∧
    staticGetAllPackages impl st = .error ⟨initErrorMsg⟩ ∧
    staticGetSimPackages impl st = .error ⟨initErrorMsg⟩ ∧
    staticGetLocalPackages impl st = .error ⟨initErrorMsg⟩ ∧
    staticGetGlobalPackages impl st = .error ⟨initErrorMsg⟩ ∧
    staticGetCountryPackages impl st = .error ⟨initErrorMsg⟩ ∧
    staticOrder impl st = .error ⟨initErrorMsg⟩ ∧
    staticOrderWithEmailSimShare impl st = .error ⟨initErrorMsg⟩ ∧
    staticOrderAsync impl st = .error ⟨initErrorMsg⟩ ∧
    staticOrderBulk packages impl st = .error ⟨initErrorMsg⟩ ∧
    staticOrderBulkWithEmailSimShare packages impl st = .error ⟨initErrorMsg⟩ ∧
    staticOrderAsyncBulk packages impl st = .error ⟨initErrorMsg⟩ ∧
    staticTopup impl st = .error ⟨initErrorMsg⟩ ∧
    staticGetInstallationInstructions impl st = .error ⟨initErrorMsg⟩ ∧
    staticCreateFutureOrder impl st = .error ⟨initErrorMsg⟩ ∧
    staticCancelFutureOrder impl st = .error ⟨initErrorMsg⟩ ∧
    (∀ st' : StaticState, resetStatic st' = ⟨[], none, none⟩) := by
  have hc := checkInitialized_not_ready h
  refine ⟨?_, ?_, ?_, ?_, ?_, ?_, ?_, ?_, ?_, ?_, ?_, ?_, ?_, ?_, ?_, ?_, ?_,
    fun _ => rfl⟩ <;>
    simp [staticGetAccessToken, staticRefreshToken, staticGetAllPackages,
      staticGetSimPackages, staticGetLocalPackages, staticGetGlobalPackages,
      staticGetCountryPackages, staticOrder, staticOrderWithEmailSimShare,
      staticOrderAsync, staticOrderBulk, staticOrderBulkWithEmailSimShare,
      staticOrderAsyncBulk, staticTopup, staticGetInstallationInstructions,
      staticCreateFutureOrder, staticCancelFutureOrder, hc, except_error_bind]

/-- Witness for C10 at the reset state (empty pool, no configuration):
every operation returns the not-initialized error. -/
theorem static_methods_require_init_witness :
    staticGetAccessToken ⟨[], none, none⟩ = .error ⟨initErrorMsg⟩ ∧
    staticRefreshToken (some "AT") ⟨[], none, none⟩ = .error ⟨initErrorMsg⟩ ∧
    staticGetAllPackages 0 ⟨[], none, none⟩ = .error ⟨initErrorMsg⟩ ∧
    staticGetSimPackages 0 ⟨[], none, none⟩ = .error ⟨initErrorMsg⟩ ∧
    staticGetLocalPackages 0 ⟨[], none, none⟩ = .error ⟨initErrorMsg⟩ ∧
    staticGetGlobalPackages 0 ⟨[], none, none⟩ = .error ⟨initErrorMsg⟩ ∧
    staticGetCountryPackages 0 ⟨[], none, none⟩ = .error ⟨initErrorMsg⟩ ∧
    staticOrder 0 ⟨[], none, none⟩ = .error ⟨initErrorMsg⟩ ∧
    staticOrderWithEmailSimShare 0 ⟨[], none, none⟩ = .error ⟨initErrorMsg⟩ ∧
    staticOrderAsync 0 ⟨[], none, none⟩ = .error ⟨initErrorMsg⟩ ∧
    staticOrderBulk [("p1", 1)] 0 ⟨[], none, none⟩ = .error ⟨initErrorMsg⟩ ∧
    staticOrderBulkWithEmailSimShare [("p1", 1)] 0 ⟨[], none, none⟩
        = .error ⟨initErrorMsg⟩ ∧
    staticOrderAsyncBulk [("p1", 1)] 0 ⟨[], none, none⟩
        = .error ⟨initErrorMsg⟩ ∧
    staticTopup 0 ⟨[], none, none⟩ = .error ⟨initErrorMsg⟩ ∧
    staticGetInstallationInstructions 0 ⟨[], none, none⟩
        = .error ⟨initErrorMsg⟩ ∧
    staticCreateFutureOrder 0 ⟨[], none, none⟩ = .error ⟨initErrorMsg⟩ ∧
    staticCancelFutureOrder 0 ⟨[], none, none⟩ = .error ⟨initErrorMsg⟩ ∧
    (∀ st' : StaticState, resetStatic st' = ⟨[], none, none⟩) :=
  static_methods_require_init Nat 0 (some "AT") [("p1", 1)] ⟨[], none, none⟩
    (Or.inl rfl)

end AiraloSDK
